import Mathlib

/-!
Shallow embedding of `examples/clients/python-dbus/aseba.py`: a Python DBus
client class `Aseba` providing event subscription/dispatch with a rolling
frequency estimator, an event-name registry, remote-variable access, and
session teardown.  Python dicts are modelled as association lists (first
match wins on lookup, in-place replace on update), wall-clock floats as `ℚ`,
DBus side effects as explicit action traces, and Python exceptions as
`Except` / `Option` results.
-/

namespace Aseba

/-- Number of events to be received before computing the frequency
(`Aseba.NB_EVTS_FREQ = 10` in the source). -/
def NB_EVTS_FREQ : Nat := 10

/-- Python-dict update semantics for an association list: replace the value at
the first occurrence of the key, or append the binding if the key is absent. -/
def updAssoc {α : Type} (m : List (Nat × α)) (k : Nat) (v : α) : List (Nat × α) :=
  match m with
  | [] => [(k, v)]
  | (k₂, v₂) :: t => if k₂ = k then (k, v) :: t else (k₂, v₂) :: updAssoc t k v

/-- An element node of a parsed XML document (`xml.etree.ElementTree`):
its tag and its attribute dictionary.  A document is modelled as the flat
list of its element nodes in document order. -/
structure XmlNode where
  tag : String
  attrib : List (String × String)
deriving DecidableEq, Repr

/-- The error message raised by `Aseba._get_event_id` for an unknown event
name (the source's format string, whose `%s` placeholder is left unfilled
by the source code). -/
def unknownEventMsg : String :=
  "Event %s is unknown. Did you load the list of events with load_events_list?"

/-- Embedding of `Aseba._get_event_id`: if the name is among the loaded event
names, return its `list.index` (first occurrence); otherwise raise
`AsebaException` with the unknown-event message.  The function does not touch
any other state: the registry (`eventnames`) is only read. -/
def get_event_id (eventnames : List String) (event_name : String) : Except String Nat :=
  if event_name ∈ eventnames then Except.ok (eventnames.indexOf event_name)
  else Except.error unknownEventMsg

/-- Embedding of `Aseba.load_events_list`: keep the child nodes whose tag is
`event`, in document order, and read each one's `name` attribute.  A missing
`name` attribute is a Python `KeyError`, modelled as `none`. -/
def load_events_list (root : List XmlNode) : Option (List String) :=
  (root.filter (fun n => n.tag = "event")).mapM (fun n => n.attrib.lookup "name")

/-- Result of `Aseba.get`: Python returns either a bare `int` (when the DBus
reply has length 1) or a list of `int`s. -/
inductive GetValue where
  | scalar (v : Int) : GetValue
  | vector (vs : List Int) : GetValue
deriving DecidableEq, Repr

/-- Embedding of `Aseba.get`: in dummy mode return `[0] * 10` without any bus
traffic; otherwise issue `GetVariable(node, var)` — whose outcome is the
`reply` argument — and convert the reply element-wise to `int`, unwrapping a
length-1 reply to a scalar.  A transport failure of the synchronous call
propagates to the caller unchanged (there is no handler around it). -/
def get (dummy : Bool) (node varname : String) (reply : Except String (List Int)) :
    Except String GetValue :=
  if dummy then Except.ok (GetValue.vector (List.replicate 10 0))
  else
    match reply with
    | Except.error e => Except.error e
    | Except.ok dbus_array =>
        if dbus_array.length = 1 then Except.ok (GetValue.scalar (dbus_array.getD 0 0))
        else Except.ok (GetValue.vector dbus_array)

/-- A call issued against a bus-side object while reclaiming orphan filters. -/
inductive BusAction where
  | free (path : String) : BusAction
deriving DecidableEq, Repr

/-- Embedding of `Aseba.clear_events`: introspect `/events_filters`; if the
introspection call raises (`none`: the path does not exist yet), return with
no release calls; otherwise, for every element with tag `node` that has a `name`
attribute, call `Free()` on `/events_filters/<name>`. -/
def clear_events (introspection : Option (List XmlNode)) : List BusAction :=
  match introspection with
  | none => []
  | some root =>
      root.filterMap (fun n =>
        if n.tag = "node" then
          (n.attrib.lookup "name").map
            (fun nm => BusAction.free ("/events_filters/" ++ nm))
        else none)

/-- Names of the filter children listed by introspection: the elements tagged
`node` that carry a `name` attribute, in document order. -/
def namedFilterChildren (root : List XmlNode) : List String :=
  root.filterMap (fun n => if n.tag = "node" then n.attrib.lookup "name" else none)

theorem clear_events_some (root : List XmlNode) :
    clear_events (some root) =
      (namedFilterChildren root).map (fun nm => BusAction.free ("/events_filters/" ++ nm)) := by
  induction root with
  | nil => rfl
  | cons n t ih =>
      simp only [clear_events, namedFilterChildren, List.filterMap_cons] at ih ⊢
      by_cases h : n.tag = "node"
      · cases hl : n.attrib.lookup "name" with
        | none => simpa [h, hl] using ih
        | some nm => simpa [h, hl] using ih
      · simpa [h] using ih

/-- The dual-mode event identifier accepted throughout the public API: either
an event name (`basestring` in the source, resolved via `_get_event_id`) or a
raw numeric ID passed through unresolved. -/
def resolveId (eventnames : List String) : String ⊕ Nat → Except String Nat
  | Sum.inl name => get_event_id eventnames name
  | Sum.inr id => Except.ok id

/-- The mutable per-session state of an `Aseba` object: the dummy flag and
the four per-event dictionaries (`callbacks`, `_events_last_evt`,
`_events_periods`, `events_freq`), plus the loaded `eventnames` list.
Callbacks are opaque tokens of type `κ`; their behaviour is supplied
separately to the dispatcher. -/
structure AsebaState (κ : Type) where
  dummy : Bool
  callbacks : List (Nat × κ)
  events_last_evt : List (Nat × ℚ)
  events_periods : List (Nat × List ℚ)
  events_freq : List (Nat × ℚ)
  eventnames : List String
deriving DecidableEq

/-- Embedding of `Aseba.__init__`: every event dictionary starts empty and no
event names are loaded. -/
def init (κ : Type) (dummy : Bool) : AsebaState κ :=
  { dummy := dummy, callbacks := [], events_last_evt := [], events_periods := [],
    events_freq := [], eventnames := [] }

/-- Embedding of `Aseba.get_event_frequency`: resolve a name to an ID if
needed; return 0 when the ID has no entry in `events_freq`, else the stored
estimate. -/
def get_event_frequency {κ : Type} (s : AsebaState κ) (event_id : String ⊕ Nat) :
    Except String ℚ := do
  let id ← resolveId s.eventnames event_id
  pure ((s.events_freq.lookup id).getD 0)

/-- A call issued against the session's event filter object. -/
inductive FilterAction where
  | listenEvent (id : Nat) : FilterAction
deriving DecidableEq, Repr

/-- Embedding of `Aseba.on_event`: a no-op in dummy mode; otherwise resolve
the identifier, store the callback (replacing any previous one), set the
last-arrival time to now (`time.time()`), reset the period window to empty,
set the frequency estimate to 0, and call `ListenEvent` on the filter. -/
def on_event {κ : Type} (s : AsebaState κ) (event_id : String ⊕ Nat) (cb : κ) (now : ℚ) :
    Except String (AsebaState κ × List FilterAction) :=
  if s.dummy then Except.ok (s, [])
  else do
    let id ← resolveId s.eventnames event_id
    Except.ok
      ({ s with
          callbacks := updAssoc s.callbacks id cb
          events_last_evt := updAssoc s.events_last_evt id now
          events_periods := updAssoc s.events_periods id []
          events_freq := updAssoc s.events_freq id 0 },
        [FilterAction.listenEvent id])

/-- Outcome of one run of `Aseba._dispatch_events`: normal completion with
the new state (this includes the silent drop of an unsubscribed ID), an
uncaught exception from the user callback together with the state at the
moment it escaped, or a `KeyError` from one of the auxiliary dictionaries
(impossible for states built through `on_event`, which keeps them in sync
with `callbacks`). -/
inductive DispatchResult (κ ε : Type) where
  | ok (s : AsebaState κ) : DispatchResult κ ε
  | cbError (e : ε) (s : AsebaState κ) : DispatchResult κ ε
  | keyError : DispatchResult κ ε
deriving DecidableEq

/-- Embedding of `Aseba._dispatch_events` for an inbound `Event(id, name,
vals)` signal at wall-clock time `now`.  If `id` has no callback, nothing
happens.  Otherwise the callback runs first — with no handler around it, so
its exception escapes before any bookkeeping — then the inter-arrival delta
is appended to the period window and the last-arrival time updated; once the
window holds `NB_EVTS_FREQ` samples the estimate becomes
`1 / (sum / NB_EVTS_FREQ)` and the window is cleared. -/
def dispatch_events {κ ε : Type} (cbRun : κ → List Int → Except ε Unit)
    (s : AsebaState κ) (id : Nat) (vals : List Int) (now : ℚ) : DispatchResult κ ε :=
  match s.callbacks.lookup id with
  | none => DispatchResult.ok s
  | some cb =>
      match cbRun cb vals with
      | Except.error e => DispatchResult.cbError e s
      | Except.ok _ =>
          match s.events_periods.lookup id, s.events_last_evt.lookup id with
          | some ps, some last =>
              let ps₂ := ps ++ [now - last]
              let s₂ := { s with events_last_evt := updAssoc s.events_last_evt id now }
              if ps₂.length = NB_EVTS_FREQ then
                DispatchResult.ok
                  { s₂ with
                      events_freq := updAssoc s₂.events_freq id
                        (1 / (ps₂.sum / (NB_EVTS_FREQ : ℚ)))
                      events_periods := updAssoc s₂.events_periods id [] }
              else
                DispatchResult.ok
                  { s₂ with events_periods := updAssoc s₂.events_periods id ps₂ }
          | _, _ => DispatchResult.keyError

/-- A callback token whose behaviour never raises, used to drive the
dispatcher through event sequences. -/
def okCb : Unit → List Int → Except String Unit := fun _ _ => Except.ok ()

/-- Repeated signal delivery: run the dispatcher once per arrival time, in
order, stopping early if a run does not complete normally. -/
def feed (id : Nat) : AsebaState Unit → List ℚ → DispatchResult Unit String
  | s, [] => DispatchResult.ok s
  | s, t :: ts =>
      match dispatch_events okCb s id [] t with
      | DispatchResult.ok s₂ => feed id s₂ ts
      | r => r

/-- Absolute arrival times produced by successive inter-arrival deltas
starting from time `t0`. -/
def timesFrom (t0 : ℚ) : List ℚ → List ℚ
  | [] => []
  | d :: ds => (t0 + d) :: timesFrom (t0 + d) ds

/-- A session state with exactly one subscription, for event `id`: its
last-arrival time, period window and frequency estimate. -/
def singleSub (id : Nat) (last : ℚ) (ps : List ℚ) (f : ℚ) : AsebaState Unit :=
  { dummy := false, callbacks := [(id, ())], events_last_evt := [(id, last)],
    events_periods := [(id, ps)], events_freq := [(id, f)], eventnames := [] }

theorem lookup_updAssoc {α : Type} (m : List (Nat × α)) (k : Nat) (v : α) :
    (updAssoc m k v).lookup k = some v := by
  induction m with
  | nil => simp [updAssoc, List.lookup]
  | cons p t ih =>
      obtain ⟨k₂, v₂⟩ := p
      by_cases h : k₂ = k
      · simp [updAssoc, h, List.lookup]
      · have hkk : (k == k₂) = false := beq_eq_false_iff_ne.mpr (fun hh => h hh.symm)
        simp only [updAssoc, if_neg h]
        simp [List.lookup, hkk, ih]

theorem dispatch_singleSub (id : Nat) (t0 : ℚ) (ps : List ℚ) (f now : ℚ) :
    dispatch_events okCb (singleSub id t0 ps f) id [] now =
      if ps.length + 1 = NB_EVTS_FREQ then
        DispatchResult.ok (singleSub id now []
          (1 / ((ps ++ [now - t0]).sum / (NB_EVTS_FREQ : ℚ))))
      else DispatchResult.ok (singleSub id now (ps ++ [now - t0]) f) := by
  by_cases h : ps.length + 1 = NB_EVTS_FREQ
  · simp [dispatch_events, singleSub, okCb, List.lookup, updAssoc, h]
  · simp [dispatch_events, singleSub, okCb, List.lookup, updAssoc, h]

theorem feed_under (id : Nat) (ds : List ℚ) :
    ∀ (t0 f : ℚ) (ps : List ℚ), ps.length + ds.length < NB_EVTS_FREQ →
      feed id (singleSub id t0 ps f) (timesFrom t0 ds) =
        DispatchResult.ok (singleSub id (t0 + ds.sum) (ps ++ ds) f) := by
  induction ds with
  | nil => intro t0 f ps _; simp [feed, timesFrom]
  | cons d ds ih =>
      intro t0 f ps h
      have hne : ¬ (ps.length + 1 = NB_EVTS_FREQ) := by
        simp only [List.length_cons, NB_EVTS_FREQ] at h ⊢; omega
      have hd : t0 + d - t0 = d := by ring
      simp only [timesFrom, feed, dispatch_singleSub, if_neg hne, hd]
      have hih : (ps ++ [d]).length + ds.length < NB_EVTS_FREQ := by
        simp only [List.length_append, List.length_cons, List.length_nil,
          List.length_cons, NB_EVTS_FREQ] at h ⊢
        omega
      rw [ih (t0 + d) f (ps ++ [d]) hih]
      simp [List.append_assoc, add_assoc]

theorem feed_window (id : Nat) (ds : List ℚ) :
    ∀ (t0 f : ℚ) (ps : List ℚ),
      ps.length < NB_EVTS_FREQ → ps.length + ds.length = NB_EVTS_FREQ →
      feed id (singleSub id t0 ps f) (timesFrom t0 ds) =
        DispatchResult.ok (singleSub id (t0 + ds.sum) []
          (1 / ((ps ++ ds).sum / (NB_EVTS_FREQ : ℚ)))) := by
  induction ds with
  | nil =>
      intro t0 f ps h1 h2
      simp only [List.length_nil, NB_EVTS_FREQ] at h1 h2
      omega
  | cons d ds ih =>
      intro t0 f ps h1 h2
      have hd : t0 + d - t0 = d := by ring
      by_cases hds : ds = []
      · subst hds
        have hlen : ps.length + 1 = NB_EVTS_FREQ := by
          simp only [List.length_cons, List.length_nil, NB_EVTS_FREQ] at h2 ⊢
          omega
        simp [timesFrom, feed, dispatch_singleSub, if_pos hlen, hd]
      · have hne : ¬ (ps.length + 1 = NB_EVTS_FREQ) := by
          have hd0 : ds.length ≠ 0 := by simpa using hds
          simp only [List.length_cons, NB_EVTS_FREQ] at h2 ⊢
          omega
        simp only [timesFrom, feed, dispatch_singleSub, if_neg hne, hd]
        have hih1 : (ps ++ [d]).length < NB_EVTS_FREQ := by
          have hd0 : ds.length ≠ 0 := by simpa using hds
          simp only [List.length_append, List.length_cons, List.length_nil,
            NB_EVTS_FREQ] at h2 ⊢
          omega
        have hih2 : (ps ++ [d]).length + ds.length = NB_EVTS_FREQ := by
          simp only [List.length_append, List.length_cons, List.length_nil,
            NB_EVTS_FREQ] at h2 ⊢
          omega
        rw [ih (t0 + d) f (ps ++ [d]) hih1 hih2]
        simp [List.append_assoc, add_assoc]

theorem timesFrom_append (t0 : ℚ) (xs ys : List ℚ) :
    timesFrom t0 (xs ++ ys) = timesFrom t0 xs ++ timesFrom (t0 + xs.sum) ys := by
  induction xs generalizing t0 with
  | nil => simp [timesFrom]
  | cons x xs ih => simp [timesFrom, ih, add_assoc]

theorem feed_append (id : Nat) (xs ys : List ℚ) :
    ∀ s, feed id s (xs ++ ys) =
      match feed id s xs with
      | DispatchResult.ok s₂ => feed id s₂ ys
      | r => r := by
  induction xs with
  | nil => intro s; simp [feed]
  | cons x xs ih =>
      intro s
      simp only [List.cons_append, feed]
      cases dispatch_events okCb s id [] x with
      | ok s₂ => exact ih s₂
      | cbError e s₂ => rfl
      | keyError => rfl

/-- A side effect on the session's bus resources, recorded in the order the
source performs it. -/
inductive SessionAction where
  | quitLoop : SessionAction
  | removeHandler : SessionAction
  | freeFilter : SessionAction
  | raiseError (msg : String) : SessionAction
deriving DecidableEq, Repr

/-- Embedding of `Aseba.close` as the ordered trace of teardown calls it
performs: `self.loop.quit()` first, then — unless in dummy mode —
`self.dispatch_handler.remove()` followed by `self.events.Free()`. -/
def close (dummy : Bool) : List SessionAction :=
  SessionAction.quitLoop ::
    (if dummy then [] else [SessionAction.removeHandler, SessionAction.freeFilter])

/-- Embedding of `Aseba.dbus_reply`, the success continuation of the
asynchronous send: `pass`, no effect. -/
def dbus_reply : List SessionAction := []

/-- Embedding of `Aseba.dbus_error`, the error continuation of the
asynchronous send: it asserts the session is not in dummy mode (`none`
models the failed assertion), performs `self.close()`, then raises
`Exception('dbus error: ...')`. -/
def dbus_error (dummy : Bool) (e : String) : Option (List SessionAction) :=
  if dummy then none
  else some (close dummy ++ [SessionAction.raiseError ("dbus error: " ++ e)])

/-- An asynchronous `SendEvent` request as issued on the bus: the resolved
numeric ID, the arguments, and the two continuations attached to the call. -/
structure AsyncSend where
  event_id : Nat
  event_args : List Int
  on_reply : List SessionAction
  on_error : String → Option (List SessionAction)

/-- Embedding of `Aseba.send_event`: a no-op in dummy mode (`none` request);
otherwise resolve a name to an ID if needed and issue an asynchronous
`SendEvent` with `dbus_reply` as reply handler and `dbus_error` as error
handler. -/
def send_event (dummy : Bool) (eventnames : List String) (event_id : String ⊕ Nat)
    (event_args : List Int) : Except String (Option AsyncSend) :=
  if dummy then Except.ok none
  else do
    let id ← resolveId eventnames event_id
    Except.ok (some
      { event_id := id, event_args := event_args,
        on_reply := dbus_reply, on_error := dbus_error dummy })

/-- Embedding of `Aseba.set`: a no-op in dummy mode; otherwise issue the
synchronous `SetVariable(node, var, value)` call — whose outcome is the
`reply` argument — with no handler around it and no continuations, so a
transport failure propagates to the caller unchanged and no teardown is
performed. -/
def set (dummy : Bool) (node varname : String) (value : List Int)
    (reply : Except String Unit) : Except String Unit :=
  if dummy then Except.ok ()
  else reply

/-- Embedding of `Aseba.load_scripts`: a no-op in dummy mode; otherwise issue
the synchronous `LoadScripts(path)` call — whose outcome is the `reply`
argument — with no handler around it, so a transport failure propagates to
the caller unchanged and no teardown is performed. -/
def load_scripts (dummy : Bool) (path : String) (reply : Except String Unit) :
    Except String Unit :=
  if dummy then Except.ok ()
  else reply

/-- C1: for a subscribed event ID (subscription at time `t0` initialises the
estimate to 0 and empties the window), feeding exactly 10 arrivals with
successive wall-clock inter-arrival deltas `d1..d10` sets the frequency
estimate to `10 / (d1 + ... + d10)` and empties the sample window; feeding
only 9 leaves the estimate at its prior value 0 (the deltas merely
accumulate); feeding 10 further arrivals after the first window yields an
estimate derived only from the 10 new deltas. -/
theorem C1_frequency_window (id : Nat) (t0 : ℚ) (ds ds9 es : List ℚ)
    (h10 : ds.length = 10) (h9 : ds9.length = 9) (he : es.length = 10)
    (hds : 0 < ds.sum) (hes : 0 < es.sum) :
    on_event (init Unit false) (Sum.inr id) () t0
        = Except.ok (singleSub id t0 [] 0, [FilterAction.listenEvent id])
    ∧ feed id (singleSub id t0 [] 0) (timesFrom t0 ds)
        = DispatchResult.ok (singleSub id (t0 + ds.sum) [] (10 / ds.sum))
    ∧ feed id (singleSub id t0 [] 0) (timesFrom t0 ds9)
        = DispatchResult.ok (singleSub id (t0 + ds9.sum) ds9 0)
    ∧ feed id (singleSub id t0 [] 0) (timesFrom t0 (ds ++ es))
        = DispatchResult.ok (singleSub id (t0 + ds.sum + es.sum) [] (10 / es.sum)) := by
  have hwin : ∀ (xs : List ℚ), xs.length = 10 → ∀ (t f : ℚ),
      feed id (singleSub id t [] f) (timesFrom t xs)
        = DispatchResult.ok (singleSub id (t + xs.sum) [] (10 / xs.sum)) := by
    intro xs hxs t f
    have h1 : ([] : List ℚ).length < NB_EVTS_FREQ := by simp [NB_EVTS_FREQ]
    have h2 : ([] : List ℚ).length + xs.length = NB_EVTS_FREQ := by
      simp [NB_EVTS_FREQ, hxs]
    have h3 := feed_window id xs t f [] h1 h2
    simpa [NB_EVTS_FREQ, one_div_div] using h3
  refine ⟨rfl, hwin ds h10 t0 0, ?_, ?_⟩
  · have h4 := feed_under id ds9 t0 0 [] (by simp [NB_EVTS_FREQ, h9])
    simpa using h4
  · rw [timesFrom_append, feed_append, hwin ds h10 t0 0]
    exact hwin es he (t0 + ds.sum) (10 / ds.sum)

theorem C1_frequency_window_witness :
    (List.replicate 10 (1 : ℚ)).length = 10 ∧ 0 < (List.replicate 10 (1 : ℚ)).sum
    ∧ feed 0 (singleSub 0 0 [] 0) (timesFrom 0 (List.replicate 10 (1 : ℚ)))
        = DispatchResult.ok (singleSub 0 (0 + (List.replicate 10 (1 : ℚ)).sum) []
            (10 / (List.replicate 10 (1 : ℚ)).sum)) :=
  ⟨by decide, by norm_num [List.sum_replicate],
    (C1_frequency_window 0 0 (List.replicate 10 1) (List.replicate 9 1)
      (List.replicate 10 2) (by decide) (by decide) (by decide)
      (by norm_num [List.sum_replicate]) (by norm_num [List.sum_replicate])).2.1⟩

/-- C2 as stated is false on the code: `Aseba.close` calls `self.loop.quit()`
first, before removing the signal handler and freeing the filter, so the
loop is not stopped after the other two steps.  This counterexample refutes
the claimed order (unsubscribe, then free, then stop the loop) on the
non-dummy teardown trace. -/
theorem C2_counterexample :
    ¬ ((close false).indexOf SessionAction.removeHandler
          < (close false).indexOf SessionAction.freeFilter
        ∧ (close false).indexOf SessionAction.freeFilter
          < (close false).indexOf SessionAction.quitLoop) := by
  decide

/-- C2 (amended): `Aseba.close` stops the event loop first, then unsubscribes
the signal handler, then frees the filter resource; each step happens exactly
once, and the filter is never freed before the signal subscription is
removed. -/
theorem C2_close_order :
    close false
      = [SessionAction.quitLoop, SessionAction.removeHandler, SessionAction.freeFilter]
    ∧ (close false).indexOf SessionAction.quitLoop = 0
    ∧ (close false).indexOf SessionAction.removeHandler
        < (close false).indexOf SessionAction.freeFilter
    ∧ (close false).count SessionAction.quitLoop = 1
    ∧ (close false).count SessionAction.removeHandler = 1
    ∧ (close false).count SessionAction.freeFilter = 1 := by
  decide

/-- C3: delivering an event whose ID has no registered callback is a no-op:
the dispatcher returns normally with the state unchanged — no callback runs,
no dictionary is touched, no error is raised. -/
theorem C3_unsubscribed_noop {κ ε : Type} (cbRun : κ → List Int → Except ε Unit)
    (s : AsebaState κ) (id : Nat) (vals : List Int) (now : ℚ)
    (h : s.callbacks.lookup id = none) :
    dispatch_events cbRun s id vals now = DispatchResult.ok s := by
  simp [dispatch_events, h]

theorem C3_unsubscribed_noop_witness :
    (init Unit false).callbacks.lookup 5 = none
    ∧ dispatch_events okCb (init Unit false) 5 [] 0 = DispatchResult.ok (init Unit false) :=
  ⟨rfl, C3_unsubscribed_noop okCb (init Unit false) 5 [] 0 rfl⟩

/-- C4: subscribing (non-dummy) inserts or replaces the single callback entry
for the ID, resets its timing window to empty, records the subscription time,
issues exactly one `ListenEvent` on the filter, and an immediate frequency
query returns 0; a second subscribe for the same ID silently replaces the
first callback. -/
theorem C4_on_event_subscribe {κ : Type} (s : AsebaState κ) (id : Nat) (cb cb2 : κ)
    (t t2 : ℚ) (hd : s.dummy = false) :
    ∃ s₂ s₃,
      on_event s (Sum.inr id) cb t = Except.ok (s₂, [FilterAction.listenEvent id])
      ∧ s₂.callbacks.lookup id = some cb
      ∧ s₂.events_periods.lookup id = some []
      ∧ s₂.events_last_evt.lookup id = some t
      ∧ get_event_frequency s₂ (Sum.inr id) = Except.ok 0
      ∧ on_event s₂ (Sum.inr id) cb2 t2 = Except.ok (s₃, [FilterAction.listenEvent id])
      ∧ s₃.callbacks.lookup id = some cb2 := by
  refine ⟨({ s with
              callbacks := updAssoc s.callbacks id cb
              events_last_evt := updAssoc s.events_last_evt id t
              events_periods := updAssoc s.events_periods id []
              events_freq := updAssoc s.events_freq id 0 }),
          ({ s with
              callbacks := updAssoc (updAssoc s.callbacks id cb) id cb2
              events_last_evt := updAssoc (updAssoc s.events_last_evt id t) id t2
              events_periods := updAssoc (updAssoc s.events_periods id []) id []
              events_freq := updAssoc (updAssoc s.events_freq id 0) id 0 }),
          ?_, lookup_updAssoc _ _ _, lookup_updAssoc _ _ _, lookup_updAssoc _ _ _,
          ?_, ?_, lookup_updAssoc _ _ _⟩
  · simp only [on_event, hd, resolveId, Bool.false_eq_true, if_false]
    rfl
  · simp [get_event_frequency, resolveId, lookup_updAssoc]
  · simp only [on_event, hd, resolveId, Bool.false_eq_true, if_false]
    rfl

theorem C4_on_event_subscribe_witness :
    (init Unit false).dummy = false
    ∧ ∃ s₂ s₃,
        on_event (init Unit false) (Sum.inr 3) () 0
            = Except.ok (s₂, [FilterAction.listenEvent 3])
        ∧ s₂.callbacks.lookup 3 = some ()
        ∧ s₂.events_periods.lookup 3 = some []
        ∧ s₂.events_last_evt.lookup 3 = some 0
        ∧ get_event_frequency s₂ (Sum.inr 3) = Except.ok 0
        ∧ on_event s₂ (Sum.inr 3) () 1 = Except.ok (s₃, [FilterAction.listenEvent 3])
        ∧ s₃.callbacks.lookup 3 = some () :=
  ⟨rfl, C4_on_event_subscribe (init Unit false) 3 () () 0 1 rfl⟩

/-- C5: for a registry produced by `load_events_list` (names in document
order) without duplicate names, resolving the name that sits at position `i`
returns `i`, and a second resolution of the same name returns the same
result (the resolver is a pure read of the registry). -/
theorem C5_resolve_position (root : List XmlNode) (names : List String) (i : Nat)
    (hl : load_events_list root = some names) (hn : names.Nodup)
    (hi : i < names.length) :
    get_event_id names (names.get ⟨i, hi⟩) = Except.ok i
    ∧ get_event_id names (names.get ⟨i, hi⟩) = get_event_id names (names.get ⟨i, hi⟩) := by
  constructor
  · have hm : names.get ⟨i, hi⟩ ∈ names := List.get_mem names i hi
    rw [List.get_eq_getElem] at hm
    simp only [get_event_id, List.get_eq_getElem, if_pos hm]
    rw [List.indexOf_getElem hn i hi]
  · rfl

theorem C5_resolve_position_witness :
    load_events_list [⟨"event", [("name", "a")]⟩, ⟨"event", [("name", "b")]⟩]
        = some ["a", "b"]
    ∧ get_event_id ["a", "b"] (["a", "b"].get ⟨1, by decide⟩) = Except.ok 1 :=
  ⟨by decide,
    (C5_resolve_position [⟨"event", [("name", "a")]⟩, ⟨"event", [("name", "b")]⟩]
      ["a", "b"] 1 (by decide) (by decide) (by decide)).1⟩

/-- C6: resolving a name absent from the registry (including the empty,
never-loaded registry) fails with the unknown-event `AsebaException`, whose
message carries the guidance to load the event list first
(`load_events_list` appears verbatim in it); the resolver only reads the
registry, so the registry is unchanged. -/
theorem C6_unknown_event (names : List String) (name : String) (h : name ∉ names) :
    get_event_id names name = Except.error unknownEventMsg
    ∧ ∃ pre post, unknownEventMsg = pre ++ "load_events_list" ++ post := by
  refine ⟨by simp [get_event_id, h],
    "Event %s is unknown. Did you load the list of events with ", "?", ?_⟩
  rfl

theorem C6_unknown_event_witness :
    get_event_id [] "foo" = Except.error unknownEventMsg
    ∧ ∃ pre post, unknownEventMsg = pre ++ "load_events_list" ++ post :=
  C6_unknown_event [] "foo" (by decide)

/-- C7: `Aseba.get` in dummy mode returns the fixed all-zero sequence
`[0] * 10` whatever the node, variable and would-be reply are; live, a
length-1 reply is unwrapped to a scalar integer, and any other reply is
returned as the full integer sequence. -/
theorem C7_get_variable (node varname : String) (reply : Except String (List Int))
    (x : Int) (arr : List Int) (hlen : arr.length ≠ 1) :
    get true node varname reply = Except.ok (GetValue.vector (List.replicate 10 0))
    ∧ get false node varname (Except.ok [x]) = Except.ok (GetValue.scalar x)
    ∧ get false node varname (Except.ok arr) = Except.ok (GetValue.vector arr) := by
  refine ⟨rfl, by simp [get], by simp [get, hlen]⟩

theorem C7_get_variable_witness :
    ([1, 2, 3] : List Int).length ≠ 1
    ∧ get true "thymio-II" "acc" (Except.error "offline")
        = Except.ok (GetValue.vector (List.replicate 10 0))
    ∧ get false "thymio-II" "acc" (Except.ok [7]) = Except.ok (GetValue.scalar 7)
    ∧ get false "thymio-II" "acc" (Except.ok [1, 2, 3])
        = Except.ok (GetValue.vector [1, 2, 3]) :=
  ⟨by decide, C7_get_variable "thymio-II" "acc" (Except.error "offline") 7 [1, 2, 3] (by decide)⟩

/-- C8: `Aseba.clear_events` treats a failed introspection of
`/events_filters` (the path does not exist yet) as nothing to reclaim — it
returns without error and issues zero `Free` calls; when introspection
succeeds it issues exactly one `Free` per named child filter listed, in
order. -/
theorem C8_clear_events_orphans (root : List XmlNode) :
    clear_events none = []
    ∧ clear_events (some root)
        = (namedFilterChildren root).map (fun nm => BusAction.free ("/events_filters/" ++ nm))
    ∧ (clear_events (some root)).length = (namedFilterChildren root).length := by
  refine ⟨rfl, clear_events_some root, ?_⟩
  rw [clear_events_some root]
  simp

/-- C9: the error continuation attached by `send_event` is `dbus_error`,
which tears the session down (`close`: quit loop, remove handler, free
filter) and only then re-raises the transport error as fatal; the success
continuation `dbus_reply` does nothing; by contrast the synchronous `get`,
`set` and `load_scripts` calls propagate a transport failure to the caller
unchanged — no continuations are attached to them and no teardown is
performed. -/
theorem C9_async_error_fatal (eventnames : List String) (id : Nat) (args : List Int)
    (e node varname path : String) (value : List Int) :
    ∃ snd, send_event false eventnames (Sum.inr id) args = Except.ok (some snd)
      ∧ snd.on_reply = []
      ∧ (∃ pre, snd.on_error e
            = some (pre ++ [SessionAction.raiseError ("dbus error: " ++ e)])
          ∧ pre = close false
          ∧ SessionAction.removeHandler ∈ pre ∧ SessionAction.freeFilter ∈ pre)
      ∧ get false node varname (Except.error e) = Except.error e
      ∧ set false node varname value (Except.error e) = Except.error e
      ∧ load_scripts false path (Except.error e) = Except.error e :=
  ⟨{ event_id := id, event_args := args, on_reply := dbus_reply,
     on_error := dbus_error false },
    rfl, rfl, ⟨close false, rfl, rfl, by decide, by decide⟩, rfl, rfl, rfl⟩

/-- C10 (implicit): the dispatcher runs the user callback before any
frequency bookkeeping and wraps it in no handler, so a raising callback
propagates its exception out of `_dispatch_events` and that arrival leaves
the last-arrival time, the period window and the frequency estimate exactly
as they were. -/
theorem C10_callback_exception {κ ε : Type} (cbRun : κ → List Int → Except ε Unit)
    (s : AsebaState κ) (id : Nat) (vals : List Int) (now : ℚ) (cb : κ) (e : ε)
    (hcb : s.callbacks.lookup id = some cb) (herr : cbRun cb vals = Except.error e) :
    dispatch_events cbRun s id vals now = DispatchResult.cbError e s := by
  simp [dispatch_events, hcb, herr]

theorem C10_callback_exception_witness :
    (singleSub 0 0 [] 0).callbacks.lookup 0 = some ()
    ∧ dispatch_events (fun _ _ => Except.error "boom") (singleSub 0 0 [] 0) 0 [] 1
        = DispatchResult.cbError "boom" (singleSub 0 0 [] 0) :=
  ⟨rfl, C10_callback_exception (fun _ _ => Except.error "boom") (singleSub 0 0 [] 0)
    0 [] 1 () "boom" rfl rfl⟩

end Aseba
